import Mathlib

/-!
Shallow embedding of the `devserver-mcp` core (log classification engine,
bounded error-history store, file-change tracker, change-to-error correlator)
from `src/log-parser.ts`, `src/file-watcher.ts` and
`src/config/default-patterns.ts`.

JavaScript numbers are modelled as exact rationals (`ℚ`), JavaScript strings
as Lean `String`/`List Char` (ASCII paths/logs; the Unicode corners of
`toLowerCase`/`trim` are outside the inputs exercised here).  The regular
expressions of `default-patterns.ts` only use single-character classes under
the quantifiers `+`, `*`, `?`, literal runs, capture groups and alternations
of literals, so they are embedded by a small backtracking matcher with
JavaScript `exec` semantics (leftmost match, greedy quantifiers, ordered
alternation, capture slices).
-/

namespace DevServer

/-- JavaScript whitespace (the characters relevant to `String.prototype.trim`
and the regex class `\s` on these ASCII log lines). -/
def jsIsWhitespace (c : Char) : Bool :=
  c = ' ' || c = '\t' || c = '\n' || c = '\r' || c = '\x0b' || c = '\x0c' || c = ' '

/-- Model of `String.prototype.trim`: drop leading and trailing whitespace. -/
def jsTrim (s : String) : String :=
  String.mk (((s.toList.dropWhile jsIsWhitespace).reverse.dropWhile jsIsWhitespace).reverse)

/-- Model of `String.prototype.endsWith`. -/
def jsEndsWith (s suffix : String) : Bool :=
  List.isSuffixOf suffix.toList s.toList

/-- Contiguous-substring test on character lists. -/
def listIncludes (sub : List Char) : List Char → Bool
  | [] => sub.isPrefixOf []
  | s@(_ :: t) => sub.isPrefixOf s || listIncludes sub t

/-- Model of `String.prototype.includes`. -/
def jsIncludes (s sub : String) : Bool :=
  listIncludes sub.toList s.toList

/-- A string is truthy in JavaScript iff it is nonempty. -/
def jsTruthy (o : Option String) : Bool :=
  match o with
  | none => false
  | some s => s ≠ ""

/-- Single-character regex atoms appearing in `default-patterns.ts`:
`\d`, `\s`, `\S`, `\w`, `.` (no `s` flag, so `.` excludes line terminators)
and literal characters. -/
inductive CharCls where
  | digit
  | space
  | nonspace
  | word
  | dot
  | one (c : Char)
deriving DecidableEq

def CharCls.test : CharCls → Char → Bool
  | .digit, c => '0' ≤ c && c ≤ '9'
  | .space, c => jsIsWhitespace c
  | .nonspace, c => !jsIsWhitespace c
  | .word, c => ('a' ≤ c && c ≤ 'z') || ('A' ≤ c && c ≤ 'Z') || ('0' ≤ c && c ≤ '9') || c = '_'
  | .dot, c => c ≠ '\n' && c ≠ '\r'
  | .one a, c => c = a

/-- Regular expressions as used by the built-in patterns: literal strings,
character classes, greedy `+`/`*`/`?` over a character class, sequencing,
ordered alternation and numbered capture groups (non-capturing `(?:...)`
groups are plain structure). -/
inductive Re where
  | eps
  | cls (c : CharCls)
  | str (s : List Char)
  | seq (a b : Re)
  | alt (a b : Re)
  | plus (c : CharCls)
  | star (c : CharCls)
  | opt (c : CharCls)
  | grp (i : Nat) (r : Re)
deriving DecidableEq

/-- Concatenation of a list of regex pieces. -/
def reSeq (l : List Re) : Re := l.foldr Re.seq Re.eps

/-- Number of capture groups of a pattern (determines `match.length - 1`). -/
def Re.ngroups : Re → Nat
  | .eps | .cls _ | .str _ | .plus _ | .star _ | .opt _ => 0
  | .seq a b | .alt a b => a.ngroups + b.ngroups
  | .grp _ r => r.ngroups + 1

/-- Length of the maximal run of characters of class `c` at the head. -/
def runLen (c : CharCls) : List Char → Nat
  | [] => 0
  | a :: s => if c.test a then runLen c s + 1 else 0

/-- Try `f n`, `f (n-1)`, ..., `f lo`, returning the first success:
greedy backtracking for a quantified character class. -/
def tryDown (f : Nat → Option α) (lo : Nat) : Nat → Option α
  | 0 => if lo = 0 then f 0 else none
  | n + 1 =>
    if lo ≤ n + 1 then
      match f (n + 1) with
      | some r => some r
      | none => tryDown f lo n
    else none

/-- Capture environment: group index ↦ captured characters. -/
abbrev Caps := List (Nat × List Char)

/-- Strip a literal prefix. -/
def stripPre : List Char → List Char → Option (List Char)
  | [], s => some s
  | _ :: _, [] => none
  | a :: l, b :: s => if a = b then stripPre l s else none

/-- CPS backtracking matcher with JavaScript semantics: ordered alternation,
greedy quantifiers (longest first), captures recorded on the success path. -/
def Re.mat : Re → List Char → Caps → (List Char → Caps → Option (List Char × Caps)) →
    Option (List Char × Caps)
  | .eps, s, caps, k => k s caps
  | .cls c, s, caps, k =>
    match s with
    | [] => none
    | a :: s' => if c.test a then k s' caps else none
  | .str l, s, caps, k =>
    match stripPre l s with
    | some s' => k s' caps
    | none => none
  | .seq a b, s, caps, k => a.mat s caps (fun s' caps' => b.mat s' caps' k)
  | .alt a b, s, caps, k =>
    match a.mat s caps k with
    | some r => some r
    | none => b.mat s caps k
  | .opt c, s, caps, k =>
    match s with
    | [] => k s caps
    | a :: s' =>
      if c.test a then
        match k s' caps with
        | some r => some r
        | none => k s caps
      else k s caps
  | .plus c, s, caps, k =>
    let n := runLen c s
    if n = 0 then none else tryDown (fun i => k (s.drop i) caps) 1 n
  | .star c, s, caps, k =>
    let n := runLen c s
    tryDown (fun i => k (s.drop i) caps) 0 n
  | .grp i r, s, caps, k =>
    r.mat s caps (fun s' caps' => k s' ((i, s.take (s.length - s'.length)) :: caps'))

/-- Run the matcher anchored at the head of `s`; on success return the
consumed text (the `match[0]` slice) and the captures. -/
def execHere (r : Re) (s : List Char) : Option (List Char × Caps) :=
  match r.mat s [] (fun s' caps => some (s', caps)) with
  | some (rest, caps) => some (s.take (s.length - rest.length), caps)
  | none => none

/-- JavaScript `RegExp.prototype.exec` (with `lastIndex = 0`): try each start
position left to right, first success wins. -/
def execFrom (r : Re) : List Char → Option (List Char × Caps)
  | [] => execHere r []
  | s@(_ :: s') =>
    match execHere r s with
    | some res => some res
    | none => execFrom r s'

/-- The JavaScript match array: slot `0` is the full match, slots `1..n` the
capture groups (`none` for a group that did not participate). -/
def buildMatch (ng : Nat) (m0 : List Char) (caps : Caps) : List (Option String) :=
  some (String.mk m0) :: (List.range ng).map (fun i => (caps.lookup (i + 1)).map String.mk)

/-- A JavaScript number resulting from `Number(string)`: `NaN`, a signed
infinity, or a finite value (modelled as an exact rational). -/
inductive JSNum where
  | nan
  | inf (neg : Bool)
  | val (q : ℚ)
deriving DecidableEq

def isDigit (c : Char) : Bool := '0' ≤ c && c ≤ '9'

def digitVal (c : Char) : Nat := c.toNat - '0'.toNat

def digitsVal (l : List Char) : Nat := l.foldl (fun a c => a * 10 + digitVal c) 0

/-- Value of a digit in radix `b` (for `0x`/`0o`/`0b` numeric strings). -/
def radixDigitVal (b : Nat) (c : Char) : Option Nat :=
  let v : Option Nat :=
    if isDigit c then some (digitVal c)
    else if 'a' ≤ c && c ≤ 'f' then some (c.toNat - 'a'.toNat + 10)
    else if 'A' ≤ c && c ≤ 'F' then some (c.toNat - 'A'.toNat + 10)
    else none
  match v with
  | some n => if n < b then some n else none
  | none => none

def radixVal (b : Nat) (l : List Char) : Nat :=
  l.foldl (fun a c => a * b + (radixDigitVal b c).getD 0) 0

def radixNum (b : Nat) (ds : List Char) : JSNum :=
  if ds ≠ [] ∧ ds.all (fun c => (radixDigitVal b c).isSome) then .val (radixVal b ds) else .nan

/-- Unsigned decimal literal `digits [. digits] [e|E [sign] digits]` /
`. digits [exponent]`, as accepted by `Number`.  A plain digit run is handled
first (its value needs no rational arithmetic). -/
def parseUnsignedDec (l : List Char) : Option ℚ :=
  if l ≠ [] ∧ l.all isDigit then some (digitsVal l : ℚ)
  else
  let p := l.span (fun c => !(c = 'e' || c = 'E'))
  let mant := p.1
  let expPart : Option ℤ :=
    match p.2 with
    | [] => some 0
    | _ :: r =>
      let q : ℤ × List Char :=
        match r with
        | '+' :: ds => (1, ds)
        | '-' :: ds => (-1, ds)
        | ds => (1, ds)
      if q.2 ≠ [] ∧ q.2.all isDigit then some (q.1 * (digitsVal q.2 : ℤ)) else none
  let fr := mant.span (fun c => c ≠ '.')
  let mantPart : Option ℚ :=
    match fr.2 with
    | [] => if fr.1 ≠ [] ∧ fr.1.all isDigit then some (digitsVal fr.1 : ℚ) else none
    | _ :: fp =>
      if (fr.1 ≠ [] ∨ fp ≠ []) ∧ fr.1.all isDigit ∧ fp.all isDigit then
        some ((digitsVal fr.1 : ℚ) + (digitsVal fp : ℚ) / (10 : ℚ) ^ fp.length)
      else none
  match mantPart, expPart with
  | some m, some e => some (m * (10 : ℚ) ^ e)
  | _, _ => none

/-- Signed decimal literal or `Infinity`. -/
def signedDec (l : List Char) : JSNum :=
  let p : Bool × List Char :=
    match l with
    | '+' :: r => (false, r)
    | '-' :: r => (true, r)
    | r => (false, r)
  if p.2 = "Infinity".toList then .inf p.1
  else
    match parseUnsignedDec p.2 with
    | some q => .val (if p.1 then -q else q)
    | none => .nan

/-- Model of JavaScript `Number(string)` (ECMAScript string-to-number):
trim, empty ↦ `0`, `0x`/`0o`/`0b` radix literals (unsigned), otherwise an
optionally signed decimal literal or `Infinity`; anything else is `NaN`. -/
def jsStringToNumber (s : String) : JSNum :=
  match (jsTrim s).toList with
  | [] => .val 0
  | '0' :: c :: ds =>
    if c = 'x' || c = 'X' then radixNum 16 ds
    else if c = 'o' || c = 'O' then radixNum 8 ds
    else if c = 'b' || c = 'B' then radixNum 2 ds
    else signedDec ('0' :: c :: ds)
  | l => signedDec l

/-- Embeds `ErrorEntry['severity']` from `src/types/index.ts`. -/
inductive Severity where
  | critical
  | warning
  | info
deriving DecidableEq

/-- Embeds `ErrorEntry['category']` from `src/types/index.ts`. -/
inductive Category where
  | typescript
  | svelte
  | vite
  | network
  | build
  | runtime
  | accessibility
  | unknown
deriving DecidableEq

/-- Embeds `ErrorEntry` from `src/types/index.ts`; `line`/`column` hold JavaScript
numbers, `timestamp` is milliseconds since epoch.  `id` and `timestamp` are
supplied by the environment (`randomUUID()`, `new Date()`). -/
structure ErrorEntry where
  id : String
  timestamp : ℤ
  severity : Severity
  category : Category
  message : String
  file : Option String := none
  line : Option JSNum := none
  column : Option JSNum := none
  stack : Option String := none
  raw : String
deriving DecidableEq

/-- The `extract` field of `LogPattern`. -/
structure Extract where
  message : Option Nat := none
  file : Option Nat := none
  line : Option Nat := none
  column : Option Nat := none
deriving DecidableEq

/-- Embeds `LogPattern` from `src/types/index.ts`. -/
structure LogPattern where
  name : String
  pattern : Re
  category : Category
  severity : Severity
  extract : Extract
deriving DecidableEq

/-- Embeds `pattern.pattern.exec(line)` producing the JavaScript match array. -/
def LogPattern.exec (p : LogPattern) (s : String) : Option (List (Option String)) :=
  (execFrom p.pattern s.toList).map (fun r => buildMatch p.pattern.ngroups r.1 r.2)

/-- Embeds `LogParser.extractField`: slot out of range or an absent group yields
`undefined`; a present capture is trimmed. -/
def extractField (m : List (Option String)) (fieldIndex : Option Nat) : Option String :=
  match fieldIndex with
  | none => none
  | some i => if i ≥ m.length then none else ((m.get? i).join).map jsTrim

/-- JavaScript `a || b` on an optional string (empty string is falsy). -/
def jsOrStr (a : Option String) (b : String) : String :=
  match a with
  | some s => if s ≠ "" then s else b
  | none => b

/-- Embeds `LogParser.createErrorEntry`: build the structured record from a match.
Total (never throws); non-numeric `line`/`column` captures are dropped. -/
def createErrorEntry (p : LogPattern) (m : List (Option String)) (raw : String)
    (id : String) (now : ℤ) : ErrorEntry :=
  let lineS := extractField m p.extract.line
  let colS := extractField m p.extract.column
  let fileS := extractField m p.extract.file
  { id := id
    timestamp := now
    severity := p.severity
    category := p.category
    message := jsOrStr (extractField m p.extract.message) (jsOrStr ((m.get? 0).join) raw)
    file := if jsTruthy fileS then fileS else none
    line :=
      match lineS with
      | some s => if s ≠ "" ∧ jsStringToNumber s ≠ .nan then some (jsStringToNumber s) else none
      | none => none
    column :=
      match colS with
      | some s => if s ≠ "" ∧ jsStringToNumber s ≠ .nan then some (jsStringToNumber s) else none
      | none => none
    raw := raw }

/-- Mutable state of `LogParser`. -/
structure ParserState where
  patterns : List LogPattern
  errorHistory : List ErrorEntry
  historyLimit : Nat
deriving DecidableEq

/-- The relevant part of `Config` (schema: `historyLimit` in `[10, 10000]`,
`correlationWindow` in `[1000, 300000]` milliseconds, modelled as integer
milliseconds). -/
structure Config where
  patterns : List LogPattern
  historyLimit : Nat
  correlationWindow : ℤ
deriving DecidableEq

/-- Embeds `new LogParser(config)`. -/
def mkParser (config : Config) : ParserState :=
  { patterns := config.patterns, errorHistory := [], historyLimit := config.historyLimit }

/-- Embeds `LogParser.trimHistory`. -/
def trimHistory (st : ParserState) : ParserState :=
  if st.errorHistory.length > st.historyLimit then
    { st with errorHistory := st.errorHistory.take st.historyLimit }
  else st

/-- Embeds `LogParser.addToHistory`. -/
def addToHistory (st : ParserState) (e : ErrorEntry) : ParserState :=
  trimHistory { st with errorHistory := e :: st.errorHistory }

/-- Embeds `LogParser.updateConfig`. -/
def updateConfig (st : ParserState) (config : Config) : ParserState :=
  trimHistory { st with patterns := config.patterns, historyLimit := config.historyLimit }

/-- The `for (const pattern of this.patterns)` loop of `parseLog`: first
pattern whose `exec` matches wins. -/
def firstMatch : List LogPattern → String → Option (LogPattern × List (Option String))
  | [], _ => none
  | p :: ps, s =>
    match p.exec s with
    | some m => some (p, m)
    | none => firstMatch ps s

/-- Embeds `LogParser.parseLog`: trim; empty line is no-match; otherwise the first
matching pattern produces a record which is pushed onto the history.
Returns the produced record (if any) and the updated state. -/
def parseLog (st : ParserState) (logLine : String) (id : String) (now : ℤ) :
    Option ErrorEntry × ParserState :=
  let trimmedLine := jsTrim logLine
  if trimmedLine = "" then (none, st)
  else
    match firstMatch st.patterns trimmedLine with
    | some pm =>
      let error := createErrorEntry pm.1 pm.2 trimmedLine id now
      (some error, addToHistory st error)
    | none => (none, st)

/-- Embeds `LogParser.getHistory` (returns a copy; modelled as the list itself). -/
def getHistory (st : ParserState) : List ErrorEntry := st.errorHistory

/-- Embeds `LogParser.getErrorsForFile`. -/
def getErrorsForFile (st : ParserState) (filepath : String) : List ErrorEntry :=
  st.errorHistory.filter (fun error =>
    jsTruthy error.file &&
      (error.file = some filepath || jsEndsWith (error.file.getD "") ("/" ++ filepath)))

/-- Embeds `LogParser.getErrorsBySeverity`. -/
def getErrorsBySeverity (st : ParserState) (severity : Severity) : List ErrorEntry :=
  st.errorHistory.filter (fun error => error.severity = severity)

/-- Embeds `LogParser.getErrorsByCategory`. -/
def getErrorsByCategory (st : ParserState) (category : Category) : List ErrorEntry :=
  st.errorHistory.filter (fun error => error.category = category)

/-- Embeds `LogParser.getRecentErrors`. -/
def getRecentErrors (st : ParserState) (count : Nat) : List ErrorEntry :=
  st.errorHistory.take count

/-- Embeds `LogParser.clearHistory`. -/
def clearHistory (st : ParserState) : ParserState :=
  { st with errorHistory := [] }

/-- Embeds `LogParser.getErrorCounts`. -/
def getErrorCounts (st : ParserState) : Nat × Nat × Nat :=
  ((st.errorHistory.filter (fun e => e.severity = .critical)).length,
   (st.errorHistory.filter (fun e => e.severity = .warning)).length,
   (st.errorHistory.filter (fun e => e.severity = .info)).length)

/-- Embeds `LogParser.getCategoryCounts` as a function from category to count
(the source initialises every category to `0` and increments per record). -/
def getCategoryCounts (st : ParserState) (c : Category) : Nat :=
  (st.errorHistory.filter (fun e => e.category = c)).length

/-- Increment the count of key `f` in a JavaScript-object-like association
list: an existing key keeps its position, a new key is appended. -/
def bumpFile : List (String × Nat) → String → List (String × Nat)
  | [], f => [(f, 1)]
  | (g, n) :: t, f => if g = f then (g, n + 1) :: t else (g, n) :: bumpFile t f

/-- Embeds `LogParser.getFileCounts`: per-file occurrence counts, only for records
that have a (truthy) file, accumulated over the history in order. -/
def getFileCounts (st : ParserState) : List (String × Nat) :=
  st.errorHistory.foldl
    (fun acc e =>
      match e.file with
      | some f => if f ≠ "" then bumpFile acc f else acc
      | none => acc)
    []

/-- Literal regex fragment. -/
def lit (s : String) : Re := .str s.toList

/-- Embeds `(?:ts|js|svelte)` -/
def extTJS : Re := .alt (lit "ts") (.alt (lit "js") (lit "svelte"))

/-- Embeds `(?:ts|js|svelte|vue|css|scss)` -/
def extAny : Re :=
  .alt (lit "ts") (.alt (lit "js") (.alt (lit "svelte")
    (.alt (lit "vue") (.alt (lit "css") (lit "scss")))))

/-- Embeds `defaultPatterns` from `src/config/default-patterns.ts`, in source order. -/
def defaultPatterns : List LogPattern :=
  [ { name := "vite-dev-server-ready"
      pattern := reSeq [.plus .space, lit "Local:", .plus .space, lit "http://localhost:",
        .grp 1 (.plus .digit), lit "/"]
      category := .build, severity := .info
      extract := { message := some 0 } },
    { name := "typescript-vite-error"
      pattern := reSeq [lit "src/",
        .grp 1 (reSeq [.plus .dot, lit ".", extTJS]),
        lit ":", .grp 2 (.plus .digit), lit ":", .grp 3 (.plus .digit),
        lit " - error TS", .grp 4 (.plus .digit), lit ": ", .grp 5 (.plus .dot)]
      category := .typescript, severity := .critical
      extract := { file := some 1, line := some 2, column := some 3, message := some 5 } },
    { name := "typescript-generic-error"
      pattern := reSeq [lit "error TS", .grp 1 (.plus .digit), lit ": ", .grp 2 (.plus .dot)]
      category := .typescript, severity := .critical
      extract := { message := some 2 } },
    { name := "svelte-compile-error"
      pattern := reSeq [lit "ParseError: ", .grp 1 (.plus .dot), lit " (",
        .grp 2 (.plus .digit), lit ":", .grp 3 (.plus .digit), lit ")"]
      category := .svelte, severity := .critical
      extract := { message := some 1, line := some 2, column := some 3 } },
    { name := "svelte-plugin-compile-error"
      pattern := reSeq [lit "[plugin:vite-plugin-svelte:compile] ", .grp 1 (.plus .dot),
        lit ":", .grp 2 (.plus .digit), lit ":", .grp 3 (.plus .digit), lit " ",
        .grp 4 (.plus .dot)]
      category := .svelte, severity := .critical
      extract := { file := some 1, line := some 2, column := some 3, message := some 4 } },
    { name := "svelte-plugin-warning"
      pattern := reSeq [lit "[plugin:vite:svelte] ", .grp 1 (.plus .dot), lit " (",
        .grp 2 (.plus .dot), lit ":", .grp 3 (.plus .digit), lit ":", .grp 4 (.plus .digit),
        lit ")"]
      category := .svelte, severity := .warning
      extract := { message := some 1, file := some 2, line := some 3, column := some 4 } },
    { name := "svelte-a11y-warning"
      pattern := reSeq [lit "[vite-plugin-svelte] ", .grp 1 (.plus .dot), lit ":",
        .grp 2 (.plus .digit), lit ":", .grp 3 (.plus .digit), lit " ", .grp 4 (.plus .dot)]
      category := .accessibility, severity := .warning
      extract := { file := some 1, line := some 2, column := some 3, message := some 4 } },
    { name := "vite-pre-transform-error"
      pattern := reSeq [lit "[vite] (client) Pre-transform error: ", .grp 1 (.plus .dot),
        lit ":", .grp 2 (.plus .digit), lit ":", .grp 3 (.plus .digit), lit " ",
        .grp 4 (.plus .dot)]
      category := .svelte, severity := .critical
      extract := { file := some 1, line := some 2, column := some 3, message := some 4 } },
    { name := "vite-internal-server-error"
      pattern := reSeq [lit "[vite] Internal server error: ", .grp 1 (.plus .dot),
        lit ":", .grp 2 (.plus .digit), lit ":", .grp 3 (.plus .digit), lit " ",
        .grp 4 (.plus .dot)]
      category := .svelte, severity := .critical
      extract := { file := some 1, line := some 2, column := some 3, message := some 4 } },
    { name := "vite-import-analysis-failed"
      pattern := reSeq [lit "[vite] Import analysis failed: ", .grp 1 (.plus .dot)]
      category := .build, severity := .critical
      extract := { message := some 1 } },
    { name := "vite-transform-failed"
      pattern := reSeq [lit "[vite] Transform failed with ", .plus .digit, lit " error",
        .opt (.one 's'), lit ":\n", .grp 1 (.plus .dot)]
      category := .build, severity := .critical
      extract := { message := some 1 } },
    { name := "vite-module-not-found"
      pattern := reSeq [lit "Cannot resolve dependency: ", .grp 1 (.plus .dot)]
      category := .build, severity := .critical
      extract := { message := some 1 } },
    { name := "vite-resolve-failed"
      pattern := reSeq [lit "Failed to resolve import \"", .grp 1 (.plus .dot),
        lit "\" from \"", .grp 2 (.plus .dot), lit "\""]
      category := .build, severity := .critical
      extract := { message := some 0, file := some 2 } },
    { name := "vite-dev-404"
      pattern := reSeq [lit "404 ", .grp 1 (.plus .nonspace)]
      category := .network, severity := .warning
      extract := { message := some 1 } },
    { name := "vite-proxy-error"
      pattern := reSeq [lit "[vite] http proxy error:\n", .grp 1 (.plus .dot)]
      category := .network, severity := .warning
      extract := { message := some 1 } },
    { name := "vite-hmr-update"
      pattern := reSeq [lit "[vite] ", .grp 1 (.plus .dot), lit " reloaded."]
      category := .build, severity := .info
      extract := { message := some 1 } },
    { name := "vite-hmr-error"
      pattern := reSeq [lit "[vite] HMR update error: ", .grp 1 (.plus .dot)]
      category := .runtime, severity := .critical
      extract := { message := some 1 } },
    { name := "postcss-error"
      pattern := reSeq [lit "[postcss] ", .grp 1 (.plus .dot), lit " (", .grp 2 (.plus .dot),
        lit ":", .grp 3 (.plus .digit), lit ":", .grp 4 (.plus .digit), lit ")"]
      category := .build, severity := .critical
      extract := { message := some 1, file := some 2, line := some 3, column := some 4 } },
    { name := "browser-runtime-error"
      pattern := reSeq [lit "Uncaught ", .plus .word, lit ": ", .grp 1 (.plus .dot),
        lit " at ", .grp 2 (.plus .dot), lit ":", .grp 3 (.plus .digit), lit ":",
        .grp 4 (.plus .digit)]
      category := .runtime, severity := .critical
      extract := { message := some 1, file := some 2, line := some 3, column := some 4 } },
    { name := "console-error"
      pattern := reSeq [lit "console.error(): ", .grp 1 (.plus .dot)]
      category := .runtime, severity := .warning
      extract := { message := some 1 } },
    { name := "tailwind-warning"
      pattern := reSeq [lit "warn - ", .grp 1 (.plus .dot)]
      category := .build, severity := .warning
      extract := { message := some 1 } },
    { name := "sveltekit-error"
      pattern := reSeq [lit "[sveltekit] ", .grp 1 (.plus .dot)]
      category := .svelte, severity := .warning
      extract := { message := some 1 } },
    { name := "generic-file-error"
      pattern := reSeq [.grp 1 (reSeq [.plus .dot, lit ".", extAny]),
        lit ":", .grp 2 (.plus .digit), lit ":", .grp 3 (.plus .digit), lit ": ",
        .grp 4 (.plus .dot)]
      category := .build, severity := .warning
      extract := { file := some 1, line := some 2, column := some 3, message := some 4 } } ]

/-- Embeds `FileChange['type']` from `src/types/index.ts`. -/
inductive ChangeType where
  | added
  | modified
  | removed
deriving DecidableEq

/-- Embeds `FileChange` from `src/types/index.ts` (timestamp in epoch milliseconds). -/
structure FileChange where
  path : String
  type : ChangeType
  timestamp : ℤ
deriving DecidableEq

/-- Embeds `ErrorCorrelation` from `src/types/index.ts`. -/
structure Correlation where
  fileChange : FileChange
  errors : List ErrorEntry
  confidence : ℚ
deriving DecidableEq

/-- Mutable state of `FileWatcher` (the chokidar subscription itself is an
external collaborator; only the change history and window matter here). -/
structure FileWatcherState where
  recentChanges : List FileChange
  correlationWindow : ℤ
deriving DecidableEq

/-- Embeds `FileWatcher.trimRecentChanges`: keep only changes newer than
`now - 2 × correlationWindow`. -/
def trimRecentChanges (st : FileWatcherState) (now : ℤ) : FileWatcherState :=
  let cutoff := now - st.correlationWindow * 2
  { st with recentChanges := st.recentChanges.filter (fun change => change.timestamp > cutoff) }

/-- Embeds `FileWatcher.handleFileChange`: build the record with the current time,
insert most-recent-first, then prune. -/
def handleFileChange (st : FileWatcherState) (path : String) (type : ChangeType)
    (now : ℤ) : FileWatcherState :=
  let change : FileChange := { path := path, type := type, timestamp := now }
  trimRecentChanges { st with recentChanges := change :: st.recentChanges } now

/-- ASCII model of `String.prototype.toLowerCase` on a character. -/
def jsToLower (c : Char) : Char :=
  if 'A' ≤ c && c ≤ 'Z' then Char.ofNat (c.toNat + 32) else c

/-- The `normalize` closure of `pathsAreRelated`:
`p.replace(/\\/g, '/').toLowerCase()`. -/
def normalizePath (p : String) : List Char :=
  p.toList.map (fun c => if c = '\\' then '/' else jsToLower c)

/-- JavaScript `String.prototype.split` with a single-character separator. -/
def splitOnChar (sep : Char) : List Char → List (List Char)
  | [] => [[]]
  | c :: t =>
    let r := splitOnChar sep t
    if c = sep then [] :: r
    else
      match r with
      | h :: t' => (c :: h) :: t'
      | [] => [[c]]

/-- Embeds `FileWatcher.pathsAreRelated`: same base filename (ignoring extensions)
or one parent-directory chain contained in the other. -/
def pathsAreRelated (path1 path2 : String) : Bool :=
  let parts1 := splitOnChar '/' (normalizePath path1)
  let parts2 := splitOnChar '/' (normalizePath path2)
  let filename1 := (parts1.getLast?.getD []).takeWhile (fun c => c ≠ '.')
  let filename2 := (parts2.getLast?.getD []).takeWhile (fun c => c ≠ '.')
  if filename1 ≠ [] && filename2 ≠ [] && filename1 = filename2 then true
  else
    let dir1 := List.intercalate ['/'] parts1.dropLast
    let dir2 := List.intercalate ['/'] parts2.dropLast
    listIncludes dir2 dir1 || listIncludes dir1 dir2

/-- The `directMatches` filter of `calculateConfidence`: errors whose file
equals the changed path or is a plain suffix of it. -/
def directMatches (change : FileChange) (errors : List ErrorEntry) : List ErrorEntry :=
  errors.filter (fun error =>
    jsTruthy error.file &&
      (error.file = some change.path || jsEndsWith change.path (error.file.getD "")))

/-- The `criticalErrors` filter of `calculateConfidence`. -/
def criticalErrors (errors : List ErrorEntry) : List ErrorEntry :=
  errors.filter (fun error => error.severity = .critical)

/-- Embeds `FileWatcher.calculateConfidence`: base `0.5`, `+0.3` for a direct file
match, up to `+0.2` for recency, `+0.05` per error capped at `+0.2`, `+0.1`
if any related error is critical, clamped to `1.0`. -/
def calculateConfidence (correlationWindow : ℤ) (change : FileChange)
    (errors : List ErrorEntry) (now : ℤ) : ℚ :=
  let confidence : ℚ := 0.5
  let confidence := if (directMatches change errors).length > 0 then confidence + 0.3
    else confidence
  let timeSinceChange : ℤ := now - change.timestamp
  let timeBonus : ℚ := max 0 (1 - (timeSinceChange : ℚ) / (correlationWindow : ℚ)) * 0.2
  let confidence := confidence + timeBonus
  let errorBonus : ℚ := min 0.2 ((errors.length : ℚ) * 0.05)
  let confidence := confidence + errorBonus
  let confidence := if (criticalErrors errors).length > 0 then confidence + 0.1
    else confidence
  min 1 confidence

/-- Insert into a descending-by-confidence list, before any element of equal
confidence encountered later (stability). -/
def insertDesc (c : Correlation) : List Correlation → List Correlation
  | [] => [c]
  | d :: t => if d.confidence ≤ c.confidence then c :: d :: t else d :: insertDesc c t

/-- Embeds `correlations.sort((a, b) => b.confidence - a.confidence)`: a stable sort
by descending confidence (JavaScript `Array.prototype.sort` is stable, so any
stable implementation has the same result). -/
def sortByConfidenceDesc : List Correlation → List Correlation
  | [] => []
  | c :: t => insertDesc c (sortByConfidenceDesc t)

/-- The per-error relatedness test inside `correlateErrors`. -/
def errorRelated (correlationWindow : ℤ) (change : FileChange) (error : ErrorEntry) : Bool :=
  let errorTimeDiff := error.timestamp - change.timestamp
  if errorTimeDiff < 0 || errorTimeDiff > correlationWindow then false
  else if jsTruthy error.file then
    let f := error.file.getD ""
    f = change.path || jsEndsWith f change.path || jsEndsWith change.path f ||
      pathsAreRelated change.path f
  else false

/-- Embeds `FileWatcher.correlateErrors`: for each non-stale recent change, gather
the related errors in the window; emit a correlation when any; sort by
descending confidence. -/
def correlateErrors (st : FileWatcherState) (errors : List ErrorEntry) (now : ℤ) :
    List Correlation :=
  let correlations := st.recentChanges.filterMap (fun change =>
    let timeDiff := now - change.timestamp
    if timeDiff > st.correlationWindow then none
    else
      let relatedErrors := errors.filter (errorRelated st.correlationWindow change)
      if relatedErrors.length > 0 then
        some { fileChange := change, errors := relatedErrors,
               confidence := calculateConfidence st.correlationWindow change relatedErrors now }
      else none)
  sortByConfidenceDesc correlations

/-- Embeds `FileWatcher.getRecentChanges`. -/
def getRecentChanges (st : FileWatcherState) (limit : Nat) : List FileChange :=
  st.recentChanges.take limit

/-- Embeds `FileWatcher.clearHistory`. -/
def clearChangeHistory (st : FileWatcherState) : FileWatcherState :=
  { st with recentChanges := [] }

/-! ### General lemmas about the embedded operations -/

/-- The default runtime configuration: built-in patterns, schema defaults
`historyLimit = 1000`, `correlationWindow = 5000`. -/
def defaultConfig : Config :=
  { patterns := defaultPatterns, historyLimit := 1000, correlationWindow := 5000 }

theorem jsTrim_eq_empty_of_whitespace (line : String)
    (h : ∀ c ∈ line.toList, jsIsWhitespace c = true) : jsTrim line = "" := by
  have hdrop : line.toList.dropWhile jsIsWhitespace = [] :=
    List.dropWhile_eq_nil_iff.mpr h
  unfold jsTrim
  rw [hdrop]
  rfl

theorem trimHistory_eq_take (st : ParserState) :
    trimHistory st = { st with errorHistory := st.errorHistory.take st.historyLimit } := by
  unfold trimHistory
  split
  · rfl
  · rename_i h
    have hle : st.errorHistory.length ≤ st.historyLimit := Nat.le_of_not_lt h
    simp [List.take_of_length_le hle]

theorem addToHistory_eq_take (st : ParserState) (e : ErrorEntry) :
    addToHistory st e =
      { st with errorHistory := (e :: st.errorHistory).take st.historyLimit } := by
  unfold addToHistory
  rw [trimHistory_eq_take]

theorem length_trimHistory_le (st : ParserState) :
    (trimHistory st).errorHistory.length ≤ st.historyLimit := by
  rw [trimHistory_eq_take]
  simp [List.length_take_le]

/-- Embeds `parseLog` either reports no match and leaves the state alone, or appends
the produced record (followed by the capacity trim). -/
theorem parseLog_cases (st : ParserState) (line id : String) (now : ℤ) :
    ((parseLog st line id now).1 = none ∧ (parseLog st line id now).2 = st) ∨
    (∃ e, (parseLog st line id now).1 = some e ∧
      (parseLog st line id now).2 = addToHistory st e) := by
  unfold parseLog
  by_cases h : jsTrim line = ""
  · exact Or.inl (by simp [h])
  · simp only [h, if_neg]
    cases hm : firstMatch st.patterns (jsTrim line) with
    | none => exact Or.inl (by simp [hm])
    | some pm =>
      exact Or.inr ⟨createErrorEntry pm.1 pm.2 (jsTrim line) id now,
        by simp [hm], by simp [hm]⟩

/-! ### Claim C1 -/

/-- Claim C1: evaluating `parseLog` over the built-in pattern list at the
line `"src/App.svelte:25:15 - error TS2304: Cannot find name 'test'."`.
The rule `typescript-vite-error` matches and yields category `typescript`,
severity `critical`, line `25`, column `15` and message
`"Cannot find name 'test'."` as claimed, but the extracted file is
`"App.svelte"`: capture group 1 of
`/src\/(.+\.(?:ts|js|svelte)):(\d+):(\d+) - error TS(\d+): (.+)/` starts
after the literal `src/`, so the repository's own test expectation
`expect(error?.file).toBe('src/App.svelte')` (and the spec) disagree with
what the code computes. -/
theorem parseLog_typescript_vite_line_record :
    (parseLog (mkParser defaultConfig)
      "src/App.svelte:25:15 - error TS2304: Cannot find name 'test'." "id0" 0).1 =
      some { id := "id0", timestamp := 0, severity := .critical, category := .typescript,
             message := "Cannot find name 'test'.", file := some "App.svelte",
             line := some (.val 25), column := some (.val 15),
             raw := "src/App.svelte:25:15 - error TS2304: Cannot find name 'test'." } ∧
    (some "App.svelte" : Option String) ≠ some "src/App.svelte" :=
  ⟨by decide, by decide⟩

/-! ### Claim C9 -/

/-- Claim C9: after `clearHistory`, `getRecentErrors` is empty for every
count, the severity counts and every category count are zero, the file
counts are empty, and clearing twice equals clearing once.  All query
functions are total, so no query can throw. -/
theorem clearHistory_resets_queries (st : ParserState) (n : Nat) (c : Category) :
    getRecentErrors (clearHistory st) n = [] ∧
    getErrorCounts (clearHistory st) = (0, 0, 0) ∧
    getCategoryCounts (clearHistory st) c = 0 ∧
    getFileCounts (clearHistory st) = [] ∧
    clearHistory (clearHistory st) = clearHistory st := by
  refine ⟨?_, rfl, rfl, rfl, rfl⟩
  simp [getRecentErrors, clearHistory]

/-! ### Claim C5 -/

/-- Modelled from the spec: the claimed `byFile` match — exact equality, or a
path-component suffix match in either direction (stored file ends with
`"/" ++ query`, or the query ends with `"/" ++ stored`). -/
def specByFileMatch (stored query : String) : Bool :=
  stored = query || jsEndsWith stored ("/" ++ query) || jsEndsWith query ("/" ++ stored)

def entrySrcApp : ErrorEntry :=
  { id := "a", timestamp := 0, severity := .critical, category := .typescript,
    message := "m1", file := some "src/App.svelte", raw := "r1" }

def entryApp : ErrorEntry :=
  { id := "b", timestamp := 0, severity := .warning, category := .build,
    message := "m2", file := some "App.svelte", raw := "r2" }

def fixtureStore : ParserState :=
  { patterns := [], errorHistory := [entrySrcApp, entryApp], historyLimit := 1000 }

def bareFileStore : ParserState :=
  { patterns := [], errorHistory := [entryApp], historyLimit := 1000 }

/-- Claim C5 (amended): `getErrorsForFile` returns exactly the records whose
file is present and nonempty and either equals the query path or ends with
`"/" ++ query` — a one-directional suffix match only (a stored longer path
matches a bare-filename query, not vice versa).  In particular,
`byFile "App.svelte"` matches a stored `"src/App.svelte"` (suffix) and a
stored `"App.svelte"` (exact). -/
theorem getErrorsForFile_characterization (st : ParserState) (p : String) (e : ErrorEntry) :
    (e ∈ getErrorsForFile st p ↔
      e ∈ st.errorHistory ∧ ∃ f, e.file = some f ∧ f ≠ "" ∧
        (f = p ∨ jsEndsWith f ("/" ++ p) = true)) ∧
    getErrorsForFile fixtureStore "App.svelte" = [entrySrcApp, entryApp] := by
  constructor
  · simp only [getErrorsForFile, List.mem_filter, Bool.and_eq_true, Bool.or_eq_true,
      decide_eq_true_eq]
    constructor
    · rintro ⟨hmem, htr, hor⟩
      cases hf : e.file with
      | none => rw [hf] at htr; simp [jsTruthy] at htr
      | some f =>
        refine ⟨hmem, f, rfl, ?_, ?_⟩
        · rw [hf] at htr; simpa [jsTruthy] using htr
        · rcases hor with heq | hsuf
          · left; rw [hf] at heq; exact Option.some_injective _ heq
          · right; rw [hf] at hsuf; simpa using hsuf
    · rintro ⟨hmem, f, hf, hne, hmatch⟩
      refine ⟨hmem, by simp [jsTruthy, hf, hne], ?_⟩
      rcases hmatch with heq | hsuf
      · left; rw [hf, heq]
      · right; rw [hf]; simpa using hsuf
  · decide

/-- Claim C5, counterexample: the spec's predicate also matches in the
reverse direction (`"App.svelte"` stored, `"src/App.svelte"` queried), but
the code returns nothing there. -/
theorem getErrorsForFile_no_reverse_suffix :
    specByFileMatch "App.svelte" "src/App.svelte" = true ∧
    getErrorsForFile bareFileStore "src/App.svelte" = [] :=
  ⟨by decide, by decide⟩

/-- Claim C5, witness: the characterization instantiated at the stored
record with file `"src/App.svelte"` and the query `"App.svelte"`. -/
theorem getErrorsForFile_witness :
    entrySrcApp ∈ getErrorsForFile fixtureStore "App.svelte" :=
  (getErrorsForFile_characterization fixtureStore "App.svelte" entrySrcApp).1.mpr
    ⟨by decide, "src/App.svelte", rfl, by decide, Or.inr (by decide)⟩

/-! ### Claim C2 -/

/-- An externally driven mutation of the parser state: a log line arriving
(`parseLog`) or a configuration reload (`updateConfig`). -/
inductive ParserOp where
  | parse (line : String) (id : String) (now : ℤ)
  | reconfigure (config : Config)

def applyOp (st : ParserState) : ParserOp → ParserState
  | .parse line id now => (parseLog st line id now).2
  | .reconfigure config => updateConfig st config

def applyOps (st : ParserState) (ops : List ParserOp) : ParserState :=
  ops.foldl applyOp st

theorem take_append_take (a b : List α) (n : Nat) :
    (a ++ b.take n).take n = (a ++ b).take n := by
  rw [List.take_append_eq_append_take, List.take_append_eq_append_take, List.take_take,
    Nat.min_eq_left (Nat.sub_le n a.length)]

theorem foldl_addToHistory (rs : List ErrorEntry) (st : ParserState)
    (h : st.errorHistory.length ≤ st.historyLimit) :
    (rs.foldl addToHistory st).errorHistory =
      (rs.reverse ++ st.errorHistory).take st.historyLimit ∧
    (rs.foldl addToHistory st).historyLimit = st.historyLimit := by
  induction rs generalizing st with
  | nil => simp [List.take_of_length_le h]
  | cons r rs ih =>
    have hlim : (addToHistory st r).historyLimit = st.historyLimit := by
      rw [addToHistory_eq_take]
    have hlen : (addToHistory st r).errorHistory.length ≤ (addToHistory st r).historyLimit := by
      rw [addToHistory_eq_take]
      simp [List.length_take_le]
    obtain ⟨ih1, ih2⟩ := ih (addToHistory st r) hlen
    refine ⟨?_, by rw [List.foldl_cons, ih2, hlim]⟩
    rw [List.foldl_cons, ih1, hlim, addToHistory_eq_take]
    show (rs.reverse ++ (r :: st.errorHistory).take st.historyLimit).take st.historyLimit = _
    rw [take_append_take]
    simp

theorem applyOps_length_le (ops : List ParserOp) (st : ParserState)
    (h : st.errorHistory.length ≤ st.historyLimit) :
    (applyOps st ops).errorHistory.length ≤ (applyOps st ops).historyLimit := by
  induction ops generalizing st with
  | nil => exact h
  | cons op ops ih =>
    refine ih (applyOp st op) ?_
    cases op with
    | parse line id now =>
      rcases parseLog_cases st line id now with ⟨_, h2⟩ | ⟨e, _, h2⟩
      · simp only [applyOp]
        rw [h2]
        exact h
      · simp only [applyOp]
        rw [h2, addToHistory_eq_take]
        simp [List.length_take_le]
    | reconfigure config =>
      simp only [applyOp, updateConfig, trimHistory_eq_take]
      simp [List.length_take_le]

/-- Claim C2: (1) under any sequence of `parseLog` calls and `updateConfig`
reloads starting from a fresh parser, the history length never exceeds the
current `historyLimit`; (2) when `parseLog` produces a record and the
configured limit is at least 1 (the config schema enforces
`historyLimit ≥ 10`), `getRecentErrors 1` on the resulting state is exactly
the just-appended record; (3) appending a sequence of records to an empty
store leaves exactly the `historyLimit` most recent ones, newest first
(oldest evicted first). -/
theorem errorHistory_bounded_and_evicts_oldest :
    (∀ (config : Config) (ops : List ParserOp),
      (applyOps (mkParser config) ops).errorHistory.length ≤
        (applyOps (mkParser config) ops).historyLimit) ∧
    (∀ (st : ParserState) (line id : String) (now : ℤ) (e : ErrorEntry),
      1 ≤ st.historyLimit → (parseLog st line id now).1 = some e →
        getRecentErrors (parseLog st line id now).2 1 = [e]) ∧
    (∀ (ps : List LogPattern) (L : Nat) (rs : List ErrorEntry),
      (rs.foldl addToHistory
        ({ patterns := ps, errorHistory := [], historyLimit := L } : ParserState)).errorHistory =
        rs.reverse.take L) := by
  refine ⟨?_, ?_, ?_⟩
  · intro config ops
    exact applyOps_length_le ops (mkParser config) (by simp [mkParser])
  · intro st line id now e h1 hsome
    rcases parseLog_cases st line id now with ⟨hnone, _⟩ | ⟨e', hsome', h2⟩
    · rw [hnone] at hsome; exact absurd hsome (by simp)
    · rw [hsome'] at hsome
      obtain rfl := Option.some_injective _ hsome
      rw [h2, addToHistory_eq_take]
      show ((e' :: st.errorHistory).take st.historyLimit).take 1 = [e']
      rw [List.take_take, Nat.min_eq_left h1]
      rfl
  · intro ps L rs
    have h := (foldl_addToHistory rs
      { patterns := ps, errorHistory := [], historyLimit := L } (by simp)).1
    simpa using h

def testPat : LogPattern :=
  { name := "generic", pattern := .grp 1 (.plus .dot), category := .unknown,
    severity := .info, extract := { message := some 1 } }

def testState : ParserState :=
  { patterns := [testPat], errorHistory := [], historyLimit := 10 }

def testEntry : ErrorEntry :=
  { id := "i1", timestamp := 5, severity := .info, category := .unknown,
    message := "boom", raw := "boom" }

/-- Claim C2, witness: a concrete matched line lands at the front of the
history and `getRecentErrors 1` returns it. -/
theorem errorHistory_bounded_witness :
    getRecentErrors (parseLog testState "boom" "i1" 5).2 1 = [testEntry] :=
  errorHistory_bounded_and_evicts_oldest.2.1 testState "boom" "i1" 5 testEntry
    (by decide) (by decide)

/-! ### Claim C10 -/

theorem firstMatch_eq_none (ps : List LogPattern) (s : String)
    (h : ∀ p ∈ ps, p.exec s = none) : firstMatch ps s = none := by
  induction ps with
  | nil => rfl
  | cons p ps ih =>
    simp only [firstMatch, h p (by simp)]
    exact ih (fun q hq => h q (by simp [hq]))

/-- Claim C10 (amended): `parseLog` returns no record on an empty or
whitespace-only line and on a line no rule matches, leaving the state
exactly unchanged; whenever it returns no record the state is unchanged; and
when a rule matches, the history becomes the new record consed onto the old
history, truncated to `historyLimit` (at capacity the oldest record is
evicted on the same call, so the mutation is insertion plus trim, not
insertion alone). -/
theorem parseLog_frame (st : ParserState) (line id : String) (now : ℤ) :
    ((∀ c ∈ line.toList, jsIsWhitespace c = true) → parseLog st line id now = (none, st)) ∧
    ((∀ p ∈ st.patterns, p.exec (jsTrim line) = none) → parseLog st line id now = (none, st)) ∧
    ((parseLog st line id now).1 = none → (parseLog st line id now).2 = st) ∧
    (∀ e, (parseLog st line id now).1 = some e →
      (parseLog st line id now).2 =
        { st with errorHistory := (e :: st.errorHistory).take st.historyLimit }) := by
  refine ⟨?_, ?_, ?_, ?_⟩
  · intro hws
    unfold parseLog
    simp [jsTrim_eq_empty_of_whitespace line hws]
  · intro hnp
    unfold parseLog
    by_cases h : jsTrim line = ""
    · simp [h]
    · simp [h, firstMatch_eq_none st.patterns (jsTrim line) hnp]
  · intro hnone
    rcases parseLog_cases st line id now with ⟨_, h2⟩ | ⟨e', hsome', _⟩
    · exact h2
    · rw [hsome'] at hnone; exact absurd hnone (by simp)
  · intro e hsome
    rcases parseLog_cases st line id now with ⟨hnone, _⟩ | ⟨e', hsome', h2⟩
    · rw [hnone] at hsome; exact absurd hsome (by simp)
    · rw [hsome'] at hsome
      obtain rfl : e' = e := Option.some_injective _ hsome
      rw [h2, addToHistory_eq_take]

def fullEntry : ErrorEntry :=
  { id := "old", timestamp := 1, severity := .warning, category := .build,
    message := "m", raw := "m" }

def fullStore : ParserState :=
  { patterns := [testPat], errorHistory := List.replicate 10 fullEntry, historyLimit := 10 }

def freshEntry : ErrorEntry :=
  { id := "i2", timestamp := 7, severity := .info, category := .unknown,
    message := "hello", raw := "hello" }

/-- Claim C10, counterexample: at capacity, a matching line does not merely
insert at the front — the oldest record is evicted in the same call, so the
new history is not the new record consed onto the old history. -/
theorem parseLog_frame_eviction :
    (parseLog fullStore "hello" "i2" 7).1 = some freshEntry ∧
    (parseLog fullStore "hello" "i2" 7).2.errorHistory =
      freshEntry :: List.replicate 9 fullEntry ∧
    freshEntry :: List.replicate 9 fullEntry ≠ freshEntry :: fullStore.errorHistory :=
  ⟨by decide, by decide, by decide⟩

/-- Claim C10, witness: a whitespace-only line leaves a concrete state
untouched, and a matched line rewrites the history to the consed-and-trimmed
form. -/
theorem parseLog_frame_witness :
    parseLog testState "   " "i0" 0 = (none, testState) ∧
    (parseLog testState "boom" "i1" 5).2 =
      { testState with
        errorHistory := (testEntry :: testState.errorHistory).take testState.historyLimit } :=
  ⟨(parseLog_frame testState "   " "i0" 0).1 (by decide),
    (parseLog_frame testState "boom" "i1" 5).2.2.2 testEntry (by decide)⟩

/-! ### Claim C6 -/

theorem firstMatch_append (pre : List LogPattern) (p : LogPattern) (rest : List LogPattern)
    (s : String) (m : List (Option String))
    (hpre : ∀ q ∈ pre, q.exec s = none) (hp : p.exec s = some m) :
    firstMatch (pre ++ p :: rest) s = some (p, m) := by
  induction pre with
  | nil => simp [firstMatch, hp]
  | cons q pre ih =>
    simp only [List.cons_append, firstMatch, hpre q (by simp)]
    exact ih (fun r hr => hpre r (by simp [hr]))

/-- Claim C6: `parseLog` reports no match on an empty or whitespace-only
line for every rule list, and on a line matched by no rule; and when the
rule list splits as `pre ++ p :: rest` with nothing in `pre` matching and
`p` matching, the produced record is built from `p` and carries `p`'s
category and severity — rules are tried strictly in order, first match
wins. -/
theorem parseLog_first_match_wins (st : ParserState) (line id : String) (now : ℤ) :
    ((∀ c ∈ line.toList, jsIsWhitespace c = true) → (parseLog st line id now).1 = none) ∧
    ((∀ p ∈ st.patterns, p.exec (jsTrim line) = none) → (parseLog st line id now).1 = none) ∧
    (∀ (pre : List LogPattern) (p : LogPattern) (rest : List LogPattern)
        (m : List (Option String)),
      st.patterns = pre ++ p :: rest →
      (∀ q ∈ pre, q.exec (jsTrim line) = none) →
      p.exec (jsTrim line) = some m →
      jsTrim line ≠ "" →
      (parseLog st line id now).1 = some (createErrorEntry p m (jsTrim line) id now) ∧
      (createErrorEntry p m (jsTrim line) id now).category = p.category ∧
      (createErrorEntry p m (jsTrim line) id now).severity = p.severity) := by
  refine ⟨?_, ?_, ?_⟩
  · intro hws
    unfold parseLog
    simp [jsTrim_eq_empty_of_whitespace line hws]
  · intro hnp
    unfold parseLog
    by_cases h : jsTrim line = ""
    · simp [h]
    · simp [h, firstMatch_eq_none st.patterns (jsTrim line) hnp]
  · intro pre p rest m hsplit hpre hp hne
    refine ⟨?_, rfl, rfl⟩
    unfold parseLog
    rw [if_neg hne, hsplit, firstMatch_append pre p rest (jsTrim line) m hpre hp]

def patFirst : LogPattern :=
  { name := "first", pattern := .grp 1 (.plus .dot), category := .vite,
    severity := .warning, extract := { message := some 1 } }

def patSecond : LogPattern :=
  { name := "second", pattern := .grp 1 (.plus .dot), category := .network,
    severity := .critical, extract := { message := some 1 } }

def twoPatState : ParserState :=
  { patterns := [patFirst, patSecond], errorHistory := [], historyLimit := 10 }

/-- Claim C6, witness: both rules match `"dup"`; the produced record comes
from the first one (`category vite / severity warning`, not the second
rule's `network/critical`). -/
theorem parseLog_first_match_wins_witness :
    (parseLog twoPatState "dup" "w1" 3).1 =
      some (createErrorEntry patFirst [some "dup", some "dup"] (jsTrim "dup") "w1" 3) ∧
    (createErrorEntry patFirst [some "dup", some "dup"] (jsTrim "dup") "w1" 3).category =
      patFirst.category ∧
    (createErrorEntry patFirst [some "dup", some "dup"] (jsTrim "dup") "w1" 3).severity =
      patFirst.severity :=
  (parseLog_first_match_wins twoPatState "dup" "w1" 3).2.2 [] patFirst [patSecond]
    [some "dup", some "dup"] rfl (by simp) (by decide) (by decide)

/-! ### Claim C3 -/

theorem mem_insertDesc (x c : Correlation) (l : List Correlation) :
    x ∈ insertDesc c l ↔ x = c ∨ x ∈ l := by
  induction l with
  | nil => simp [insertDesc]
  | cons d t ih =>
    simp only [insertDesc]
    split
    · simp [or_comm, or_assoc, or_left_comm]
    · simp only [List.mem_cons, ih]
      tauto

theorem mem_sortByConfidenceDesc (x : Correlation) (l : List Correlation) :
    x ∈ sortByConfidenceDesc l ↔ x ∈ l := by
  induction l with
  | nil => simp [sortByConfidenceDesc]
  | cons c t ih => simp [sortByConfidenceDesc, mem_insertDesc, ih]

/-- Claim C3: every correlation emitted by `correlateErrors` references only
errors whose timestamp is at or after the associated change's timestamp and
at most `correlationWindow` after it. -/
theorem correlation_causality (st : FileWatcherState) (errors : List ErrorEntry)
    (now : ℤ) (corr : Correlation) (e : ErrorEntry)
    (hc : corr ∈ correlateErrors st errors now) (he : e ∈ corr.errors) :
    corr.fileChange.timestamp ≤ e.timestamp ∧
    e.timestamp - corr.fileChange.timestamp ≤ st.correlationWindow := by
  unfold correlateErrors at hc
  rw [mem_sortByConfidenceDesc] at hc
  obtain ⟨change, hchange, hf⟩ := List.mem_filterMap.mp hc
  dsimp only at hf
  split at hf
  · exact absurd hf (by simp)
  · split at hf
    · obtain rfl := Option.some_injective _ hf
      have hrel := (List.mem_filter.mp he).2
      simp only [errorRelated] at hrel
      by_cases hlt : e.timestamp - change.timestamp < 0
      · simp [hlt] at hrel
      · by_cases hgt : e.timestamp - change.timestamp > st.correlationWindow
        · simp [hlt, hgt] at hrel
        · exact ⟨show change.timestamp ≤ e.timestamp by omega,
            show e.timestamp - change.timestamp ≤ st.correlationWindow by omega⟩
    · exact absurd hf (by simp)

def chgW : FileChange := { path := "src/App.svelte", type := .modified, timestamp := 1000 }

def errW1 : ErrorEntry :=
  { id := "e1", timestamp := 1500, severity := .critical, category := .typescript,
    message := "m", file := some "src/App.svelte", raw := "r" }

def stW : FileWatcherState := { recentChanges := [chgW], correlationWindow := 5000 }

def corrW : Correlation :=
  { fileChange := chgW, errors := [errW1],
    confidence := calculateConfidence 5000 chgW [errW1] 1200 }

/-- Claim C3, witness: a concrete change at `t = 1000` correlated with an
error at `t = 1500` inside a 5000 ms window. -/
theorem correlation_causality_witness :
    corrW.fileChange.timestamp ≤ errW1.timestamp ∧
    errW1.timestamp - corrW.fileChange.timestamp ≤ stW.correlationWindow :=
  correlation_causality stW [errW1] 1200 corrW errW1
    (by rw [show correlateErrors stW [errW1] 1200 = [corrW] from rfl]; simp)
    (by simp [corrW])

/-! ### Claim C8 -/

/-- Claim C8: after `handleFileChange`, the retained changes are exactly the
new record consed onto the old ones filtered to timestamps strictly newer
than `now - 2 × correlationWindow` (the new event inserted most-recent-first
and older events purged on that write); consequently every retained change
is newer than the cutoff, and with a positive window (the schema enforces
`correlationWindow ≥ 1000`) the new event survives at the front. -/
theorem handleFileChange_retention (st : FileWatcherState) (path : String)
    (type : ChangeType) (now : ℤ) :
    (handleFileChange st path type now).recentChanges =
      (({ path := path, type := type, timestamp := now } : FileChange) ::
        st.recentChanges).filter
        (fun change => change.timestamp > now - st.correlationWindow * 2) ∧
    (∀ c ∈ (handleFileChange st path type now).recentChanges,
      c.timestamp > now - st.correlationWindow * 2) ∧
    (0 < st.correlationWindow →
      (handleFileChange st path type now).recentChanges.head? =
        some { path := path, type := type, timestamp := now }) := by
  refine ⟨rfl, ?_, ?_⟩
  · intro c hc
    have hmem : c ∈ (({ path := path, type := type, timestamp := now } : FileChange) ::
        st.recentChanges).filter
        (fun change => change.timestamp > now - st.correlationWindow * 2) := hc
    have := (List.mem_filter.mp hmem).2
    simpa using this
  · intro hw
    have h1 : (handleFileChange st path type now).recentChanges =
        (({ path := path, type := type, timestamp := now } : FileChange) ::
          st.recentChanges).filter
          (fun change => change.timestamp > now - st.correlationWindow * 2) := rfl
    rw [h1, List.filter_cons_of_pos]
    · rfl
    · simp only [decide_eq_true_eq]
      omega

def fwW : FileWatcherState := { recentChanges := [], correlationWindow := 5000 }

/-- Claim C8, witness: recording a change on an empty tracker with a 5000 ms
window leaves the new event at the front. -/
theorem handleFileChange_retention_witness :
    (handleFileChange fwW "src/App.svelte" .modified 1000).recentChanges.head? =
      some { path := "src/App.svelte", type := .modified, timestamp := 1000 } :=
  (handleFileChange_retention fwW "src/App.svelte" .modified 1000).2.2 (by decide)

/-! ### Claim C4 -/

theorem calculateConfidence_eq (w : ℤ) (change : FileChange)
    (errors : List ErrorEntry) (now : ℤ) :
    calculateConfidence w change errors now =
      min 1 ((if (directMatches change errors).length > 0 then (0.5 : ℚ) + 0.3 else 0.5) +
        max 0 (1 - (((now - change.timestamp : ℤ) : ℚ) / ((w : ℤ) : ℚ))) * 0.2 +
        min 0.2 ((errors.length : ℚ) * 0.05) +
        (if (criticalErrors errors).length > 0 then (0.1 : ℚ) else 0)) := by
  by_cases h : (criticalErrors errors).length > 0
  · simp only [calculateConfidence, if_pos h]
  · simp only [calculateConfidence, if_neg h]
    congr 1
    ring

/-- Claim C4 (amended): for a fixed change, time and window, the confidence
is monotone non-decreasing in the number of related errors when the
direct-match and has-critical factors agree; and a related-error set with a
critical error scores strictly higher than the otherwise-identical set
without critical errors provided the latter's confidence lies below the
`1.0` clamp (at the clamp both sides saturate at `1.0` — see the
counterexample). -/
theorem confidence_monotone_and_critical (w : ℤ) (change : FileChange) (now : ℤ)
    (errors1 errors2 : List ErrorEntry) :
    (errors1.length ≤ errors2.length →
      ((directMatches change errors1).length > 0 ↔ (directMatches change errors2).length > 0) →
      ((criticalErrors errors1).length > 0 ↔ (criticalErrors errors2).length > 0) →
      calculateConfidence w change errors1 now ≤ calculateConfidence w change errors2 now) ∧
    (errors1.length = errors2.length →
      ((directMatches change errors1).length > 0 ↔ (directMatches change errors2).length > 0) →
      (criticalErrors errors1).length > 0 →
      (criticalErrors errors2).length = 0 →
      calculateConfidence w change errors2 now < 1 →
      calculateConfidence w change errors2 now < calculateConfidence w change errors1 now) := by
  constructor
  · intro hlen hdir hcrit
    rw [calculateConfidence_eq, calculateConfidence_eq]
    have hdir' : (if (directMatches change errors1).length > 0 then (0.5 : ℚ) + 0.3 else 0.5) =
        (if (directMatches change errors2).length > 0 then (0.5 : ℚ) + 0.3 else 0.5) := by
      by_cases h1 : (directMatches change errors1).length > 0
      · rw [if_pos h1, if_pos (hdir.mp h1)]
      · rw [if_neg h1, if_neg (fun h2 => h1 (hdir.mpr h2))]
    have hcrit' : (if (criticalErrors errors1).length > 0 then (0.1 : ℚ) else 0) =
        (if (criticalErrors errors2).length > 0 then (0.1 : ℚ) else 0) := by
      by_cases h1 : (criticalErrors errors1).length > 0
      · rw [if_pos h1, if_pos (hcrit.mp h1)]
      · rw [if_neg h1, if_neg (fun h2 => h1 (hcrit.mpr h2))]
    rw [hdir', hcrit']
    apply min_le_min le_rfl
    have hle : ((errors1.length : ℚ)) ≤ (errors2.length : ℚ) := by exact_mod_cast hlen
    have heb : min (0.2 : ℚ) ((errors1.length : ℚ) * 0.05) ≤
        min 0.2 ((errors2.length : ℚ) * 0.05) := by
      apply min_le_min le_rfl
      nlinarith
    linarith
  · intro hlen hdir h3 h4 hlt
    rw [calculateConfidence_eq] at hlt ⊢
    rw [calculateConfidence_eq]
    have hdir' : (if (directMatches change errors2).length > 0 then (0.5 : ℚ) + 0.3 else 0.5) =
        (if (directMatches change errors1).length > 0 then (0.5 : ℚ) + 0.3 else 0.5) := by
      by_cases h1 : (directMatches change errors1).length > 0
      · rw [if_pos h1, if_pos (hdir.mp h1)]
      · rw [if_neg h1, if_neg (fun h2 => h1 (hdir.mpr h2))]
    have heb' : ((errors2.length : ℚ)) = (errors1.length : ℚ) := by exact_mod_cast hlen.symm
    have h4' : ¬(criticalErrors errors2).length > 0 := by omega
    rw [if_pos h3, if_neg h4'] at *
    rw [hdir', heb'] at hlt ⊢
    set X := (if (directMatches change errors1).length > 0 then (0.5 : ℚ) + 0.3 else 0.5) +
      max 0 (1 - (((now - change.timestamp : ℤ) : ℚ) / ((w : ℤ) : ℚ))) * 0.2 +
      min 0.2 ((errors1.length : ℚ) * 0.05) with hX
    have hXlt : X + 0 < 1 := by
      rcases le_or_lt 1 (X + 0) with h | h
      · rw [min_eq_left h] at hlt
        linarith
      · exact h
    rw [min_eq_right (le_of_lt hXlt)]
    exact lt_min (by linarith) (by linarith)

def chgC : FileChange := { path := "src/App.svelte", type := .modified, timestamp := 1000 }

def mkWarn (i : String) : ErrorEntry :=
  { id := i, timestamp := 1000, severity := .warning, category := .typescript,
    message := "m", file := some "src/App.svelte", raw := "r" }

def errsNoCrit : List ErrorEntry := [mkWarn "1", mkWarn "2", mkWarn "3", mkWarn "4"]

def errsCrit : List ErrorEntry :=
  [{ mkWarn "1" with severity := .critical }, mkWarn "2", mkWarn "3", mkWarn "4"]

/-- Claim C4, counterexample: with four direct-match errors right at the
change time, the unclamped score already reaches `1.2`, so the clamp makes
the critical and non-critical variants both score exactly `1.0` — the
critical set is not strictly higher. -/
theorem confidence_critical_clamped_equal :
    errsNoCrit = errsCrit.map (fun e => { e with severity := .warning }) ∧
    (criticalErrors errsCrit).length > 0 ∧
    (criticalErrors errsNoCrit).length = 0 ∧
    calculateConfidence 5000 chgC errsCrit 1000 = 1 ∧
    calculateConfidence 5000 chgC errsNoCrit 1000 = 1 := by
  refine ⟨by decide, by decide, by decide, ?_, ?_⟩
  · rw [calculateConfidence_eq, if_pos (by decide), if_pos (by decide),
      show errsCrit.length = 4 from rfl, show chgC.timestamp = 1000 from rfl]
    norm_num [min_def, max_def]
  · rw [calculateConfidence_eq, if_pos (by decide), if_neg (by decide),
      show errsNoCrit.length = 4 from rfl, show chgC.timestamp = 1000 from rfl]
    norm_num [min_def, max_def]

def warnOne : List ErrorEntry := [mkWarn "1"]

def critOne : List ErrorEntry := [{ mkWarn "1" with severity := .critical }]

def monoBig : List ErrorEntry := [mkWarn "2", mkWarn "3"]

/-- Claim C4, witness: one direct warning versus two (monotone part), and the
critical singleton strictly beats the warning singleton at `now = 6000`
where the non-critical confidence `0.85` is below the clamp. -/
theorem confidence_monotone_witness :
    calculateConfidence 5000 chgC warnOne 1000 ≤ calculateConfidence 5000 chgC monoBig 1000 ∧
    calculateConfidence 5000 chgC warnOne 6000 < calculateConfidence 5000 chgC critOne 6000 := by
  have hlt : calculateConfidence 5000 chgC warnOne 6000 < 1 := by
    rw [calculateConfidence_eq, if_pos (by decide), if_neg (by decide),
      show warnOne.length = 1 from rfl, show chgC.timestamp = 1000 from rfl]
    norm_num [min_def, max_def]
  exact ⟨(confidence_monotone_and_critical 5000 chgC 1000 warnOne monoBig).1
      (by decide) (by decide) (by decide),
    (confidence_monotone_and_critical 5000 chgC 6000 critOne warnOne).2
      (by decide) (by decide) (by decide) (by decide) hlt⟩

/-! ### Claim C7 -/

/-- Claim C7 (amended): the `line`/`column` fields are set exactly when the
corresponding capture is present, nonempty and parses as a JavaScript number
via `Number` — which accepts non-integer numerals such as `"2.5"`, see the
counterexample — and a capture whose `Number` is `NaN` is dropped silently,
the field left absent; `createErrorEntry` is total, so extraction never
raises. -/
theorem line_column_set_only_when_numeric (p : LogPattern) (m : List (Option String))
    (raw id : String) (now : ℤ) :
    ((createErrorEntry p m raw id now).line ≠ none →
      ∃ s, extractField m p.extract.line = some s ∧ s ≠ "" ∧ jsStringToNumber s ≠ .nan ∧
        (createErrorEntry p m raw id now).line = some (jsStringToNumber s)) ∧
    (∀ s, extractField m p.extract.line = some s → jsStringToNumber s = .nan →
      (createErrorEntry p m raw id now).line = none) ∧
    ((createErrorEntry p m raw id now).column ≠ none →
      ∃ s, extractField m p.extract.column = some s ∧ s ≠ "" ∧ jsStringToNumber s ≠ .nan ∧
        (createErrorEntry p m raw id now).column = some (jsStringToNumber s)) ∧
    (∀ s, extractField m p.extract.column = some s → jsStringToNumber s = .nan →
      (createErrorEntry p m raw id now).column = none) := by
  refine ⟨?_, ?_, ?_, ?_⟩
  · intro hne
    simp only [createErrorEntry] at hne ⊢
    cases hls : extractField m p.extract.line with
    | none => rw [hls] at hne; simp at hne
    | some s =>
      rw [hls] at hne
      dsimp only at hne ⊢
      by_cases hok : s ≠ "" ∧ jsStringToNumber s ≠ .nan
      · exact ⟨s, rfl, hok.1, hok.2, by rw [if_pos hok]⟩
      · rw [if_neg hok] at hne; simp at hne
  · intro s hls hnan
    simp only [createErrorEntry]
    rw [hls]
    dsimp only
    rw [if_neg (fun hok => hok.2 hnan)]
  · intro hne
    simp only [createErrorEntry] at hne ⊢
    cases hls : extractField m p.extract.column with
    | none => rw [hls] at hne; simp at hne
    | some s =>
      rw [hls] at hne
      dsimp only at hne ⊢
      by_cases hok : s ≠ "" ∧ jsStringToNumber s ≠ .nan
      · exact ⟨s, rfl, hok.1, hok.2, by rw [if_pos hok]⟩
      · rw [if_neg hok] at hne; simp at hne
  · intro s hls hnan
    simp only [createErrorEntry]
    rw [hls]
    dsimp only
    rw [if_neg (fun hok => hok.2 hnan)]

def numPat : LogPattern :=
  { name := "num", pattern := .grp 1 (.plus .dot), category := .unknown,
    severity := .info, extract := { message := some 1, line := some 1 } }

/-- Claim C7, witness: a numeric capture (`"25"`) produces a set `line`
field, and a capture that is not a number (`"abc"`) leaves it absent. -/
theorem line_column_set_only_when_numeric_witness :
    (∃ s, extractField [some "25", some "25"] numPat.extract.line = some s ∧ s ≠ "" ∧
      jsStringToNumber s ≠ .nan ∧
      (createErrorEntry numPat [some "25", some "25"] "25" "i" 0).line =
        some (jsStringToNumber s)) ∧
    (createErrorEntry numPat [some "abc", some "abc"] "abc" "i" 0).line = none :=
  ⟨(line_column_set_only_when_numeric numPat [some "25", some "25"] "25" "i" 0).1
      (by decide),
    (line_column_set_only_when_numeric numPat [some "abc", some "abc"] "abc" "i" 0).2.1
      "abc" (by decide) (by decide)⟩

def fracStore : ParserState :=
  { patterns := [numPat], errorHistory := [], historyLimit := 10 }

/-- Claim C7, counterexample: the capture `"2.5"` does not parse as an
integer, yet the code sets `line` to the non-integer value `5/2` — the guard
is `!isNaN(Number(text))`, which accepts any numeric string, not only
integers. -/
theorem line_set_to_noninteger :
    ((parseLog fracStore "2.5" "i" 0).1.map ErrorEntry.line) = some (some (.val (5 / 2))) ∧
    ∀ n : ℤ, ((5 : ℚ) / 2) ≠ (n : ℚ) := by
  constructor
  · have h1 : jsStringToNumber "2.5" =
        .val ((((2 : ℕ) : ℚ) + ((5 : ℕ) : ℚ) / (10 : ℚ) ^ (1 : ℕ)) * (10 : ℚ) ^ (0 : ℤ)) :=
      rfl
    have h0 : jsStringToNumber "2.5" = .val (5 / 2) := by
      rw [h1]
      norm_num
    show some (some (jsStringToNumber "2.5")) = some (some (JSNum.val (5 / 2)))
    rw [h0]
  · intro n h
    have h2 : (5 : ℚ) = 2 * (n : ℚ) := by
      field_simp at h
      linarith
    have h3 : (5 : ℤ) = 2 * n := by exact_mod_cast h2
    omega

end DevServer
